import Mathlib

/-!
Shallow embedding of the proctoring state machine of the ai-interview
backend (src/backend/main.py together with src/backend/models.py).

The `Interview` record carries the proctoring-relevant columns of the
`interviews` table.  Each HTTP handler that touches those columns is
embedded as a pure function from the interview row (plus the per-poll
verification inputs) to the updated row and, where the claims need it,
the JSON response.  The face / audio verifier calls are external
services; their results enter the embedding as the `face_reason` and
`audio_match` inputs of a poll, exactly the two values `verify_user`
branches on after the service calls return.
-/

namespace AIInterview

/-- Reason codes of `FaceRecognitionService.verify_face`
(src/backend/face_recognition_service.py, docstring of `verify_face`):
match, no_face, different_face, expired_face_id, bypass, error. -/
inductive FaceReason where
  | match_face
  | no_face
  | different_face
  | expired_face_id
  | bypass
  | error
deriving DecidableEq, BEq, Repr

/-- Lifecycle status of an interview (models.py line 37:
pending, in_progress, completed, terminated). -/
inductive Status where
  | pending
  | in_progress
  | completed
  | terminated
deriving DecidableEq, BEq, Repr

/-- Values stored in `termination_reason` (models.py line 40:
face_violation, audio_violation, tab_switch). -/
inductive TermReason where
  | face_violation
  | audio_violation
  | tab_switch
deriving DecidableEq, BEq, Repr

/-- Display text used in the response messages:
`violation_type.replace('_', ' ')` in main.py. -/
def TermReason.text : TermReason → String
  | .face_violation => "face violation"
  | .audio_violation => "audio violation"
  | .tab_switch => "tab switch"

/-- The proctoring-relevant columns of one `interviews` row (models.py
lines 31-42).  `answered_count` stands for the count of `Answer` rows of
this interview, which main.py reads back from the database
(`db.query(Answer).filter(...).count()`). -/
structure Interview where
  status : Status
  alert_count : Nat
  consecutive_face_failures : Nat
  termination_reason : Option TermReason
  answered_count : Nat
deriving DecidableEq, Repr

/-- Row created by `start_interview` (main.py lines 196-200): status is
set to in_progress explicitly, the counters take the column defaults 0
(models.py lines 38-39) and `termination_reason` the default null. -/
def startInterview : Interview :=
  { status := .in_progress
    alert_count := 0
    consecutive_face_failures := 0
    termination_reason := none
    answered_count := 0 }

/-- Classification of the face verdict (main.py line 385):
`is_face_violation = face_reason in ["no_face", "different_face"]`. -/
def isFaceViolation (r : FaceReason) : Bool :=
  [FaceReason.no_face, FaceReason.different_face].contains r

/-- The violation recorded by one poll (main.py lines 420-430): the
face check comes first, the audio check only in the elif branch, and a
clean poll records nothing. -/
def pollViolation (r : FaceReason) (audio_match : Bool) : Option TermReason :=
  if isFaceViolation r = true then some .face_violation
  else if audio_match = false then some .audio_violation
  else none

/-- The alert ceiling hard-coded in main.py line 437
(`if interview.alert_count >= 5`). -/
def ALERT_CEILING : Nat := 5

/-- JSON body returned by `verify_user`.  Keys a branch of the handler
leaves out of its dict are the defaults here (violation_type null,
terminated false, alert_reset false, empty message). -/
structure VerifyResp where
  verified : Bool
  alert : Bool
  alert_count : Nat
  violation_type : Option TermReason := none
  terminated : Bool := false
  alert_reset : Bool := false
  message : String := ""
deriving DecidableEq, Repr

/-- The `verify_user` handler (main.py lines 343-473), restricted to its
effect on the interview row and its response.  Note the handler never
reads `interview.status`: it runs the same logic on every row it finds.
`alert_count` is a non-null integer here, so `(interview.alert_count or
0) + 1` is `alert_count + 1`. -/
def verifyUser (s : Interview) (face_reason : FaceReason) (audio_match : Bool) :
    Interview × VerifyResp :=
  let is_face_violation := isFaceViolation face_reason
  match pollViolation face_reason audio_match with
  | some violation_type =>
    let s1 : Interview := { s with alert_count := s.alert_count + 1 }
    if ALERT_CEILING ≤ s1.alert_count then
      let s2 : Interview :=
        { s1 with status := .terminated, termination_reason := some violation_type }
      (s2,
        { verified := false
          alert := true
          terminated := true
          violation_type := some violation_type
          alert_count := s2.alert_count
          message := "Interview terminated after " ++ toString s2.alert_count
            ++ " violations: " ++ violation_type.text })
    else
      (s1,
        { verified := false
          alert := true
          alert_count := s1.alert_count
          violation_type := some violation_type
          message := "Identity verification failed: " ++ violation_type.text
            ++ " (Alert " ++ toString s1.alert_count ++ "/5)" })
  | none =>
    if is_face_violation = false ∧ audio_match = true ∧ 0 < s.alert_count then
      ({ s with alert_count := 0 },
        { verified := true
          alert := false
          alert_count := 0
          alert_reset := true
          message := "Verification successful - alert count reset" })
    else
      (s, { verified := true, alert := false, alert_count := s.alert_count })

/-- The `terminate_interview` handler (main.py lines 319-341), restricted
to its effect on the interview row: when the row is not yet terminated or
has no termination_reason, set both; otherwise leave the row alone. -/
def terminateInterview (s : Interview) : Interview :=
  if s.status ≠ .terminated ∨ s.termination_reason = none then
    { s with status := .terminated, termination_reason := some .tab_switch }
  else s

/-- The `get_question` handler (main.py lines 207-261), restricted to its
effect on the interview row: completed and terminated rows are returned
untouched; with ten answers on file the row flips to completed; otherwise
a question row is created and the interview row is untouched. -/
def getQuestion (s : Interview) : Interview :=
  if s.status = .completed then s
  else if s.status = .terminated then s
  else if 10 ≤ s.answered_count then { s with status := .completed }
  else s

/-- The `submit_answer` handler (main.py lines 263-317), restricted to
its effect on the interview row: terminated and completed rows error with
no mutation, as does an unknown question id; otherwise one `Answer` row
is stored and, when that makes ten, the interview flips to completed. -/
def submitAnswer (s : Interview) (question_found : Bool) : Interview :=
  if s.status = .terminated then s
  else if s.status = .completed then s
  else if question_found = false then s
  else
    let s1 : Interview := { s with answered_count := s.answered_count + 1 }
    if 10 ≤ s1.answered_count then { s1 with status := .completed } else s1

/-- Body of the summary response, restricted to the fields the claims
mention (main.py lines 503-521). -/
structure SummaryOut where
  status : Status
  termination_reason : Option TermReason
  total_questions : Nat
deriving DecidableEq, Repr

/-- The `get_summary` handler (main.py lines 475-521): it raises a 400
unless the status is completed or terminated, and in every case performs
no write on the interview row (the returned row is the input row). -/
def getSummary (s : Interview) : Interview × Except String SummaryOut :=
  if ¬(s.status = .completed ∨ s.status = .terminated) then
    (s, .error "Interview not completed or terminated yet")
  else
    (s,
      .ok { status := s.status
            termination_reason := s.termination_reason
            total_questions := s.answered_count })

/-- One invocation of an exposed operation on an existing interview. -/
inductive Op where
  | verify (face_reason : FaceReason) (audio_match : Bool)
  | question
  | answer (question_found : Bool)
  | terminate
  | summary
deriving DecidableEq, Repr

/-- Effect of one operation on the interview row. -/
def runOp (s : Interview) : Op → Interview
  | .verify r a => (verifyUser s r a).1
  | .question => getQuestion s
  | .answer qf => submitAnswer s qf
  | .terminate => terminateInterview s
  | .summary => (getSummary s).1

/-- Effect of a sequence of operations on the interview row. -/
def runOps (s : Interview) : List Op → Interview
  | [] => s
  | op :: rest => runOps (runOp s op) rest

/-- Invariant tying `termination_reason` to the terminated status. -/
def statusReasonInv (s : Interview) : Prop :=
  s.termination_reason ≠ none ↔ s.status = .terminated

/-- Helper: `verify_user` never writes `consecutive_face_failures`. -/
theorem verifyUser_cff (s : Interview) (r : FaceReason) (a : Bool) :
    (verifyUser s r a).1.consecutive_face_failures = s.consecutive_face_failures := by
  unfold verifyUser
  cases hp : pollViolation r a <;> simp only [] <;> split <;> rfl

/-- Helper: no exposed operation writes `consecutive_face_failures`. -/
theorem runOp_cff (s : Interview) (op : Op) :
    (runOp s op).consecutive_face_failures = s.consecutive_face_failures := by
  cases op with
  | verify r a => exact verifyUser_cff s r a
  | question =>
      simp only [runOp, getQuestion]
      split
      · rfl
      · split
        · rfl
        · split <;> rfl
  | answer qf =>
      simp only [runOp, submitAnswer]
      split
      · rfl
      · split
        · rfl
        · split
          · rfl
          · split <;> rfl
  | terminate =>
      simp only [runOp, terminateInterview]
      split <;> rfl
  | summary =>
      simp only [runOp, getSummary]
      split <;> rfl

/-- Helper: `consecutive_face_failures` is invariant under every
operation sequence. -/
theorem runOps_cff (ops : List Op) (s : Interview) :
    (runOps s ops).consecutive_face_failures = s.consecutive_face_failures := by
  induction ops generalizing s with
  | nil => rfl
  | cons op rest ih => rw [runOps, ih, runOp_cff]

/-- Helper: every operation preserves the status/reason invariant. -/
theorem runOp_inv (s : Interview) (op : Op) (h : statusReasonInv s) :
    statusReasonInv (runOp s op) := by
  cases op with
  | verify r a =>
      simp only [runOp, verifyUser]
      cases hp : pollViolation r a <;> simp only []
      · split
        · exact h
        · exact h
      · split
        · simp [statusReasonInv]
        · exact h
  | question =>
      simp only [runOp, getQuestion]
      split
      · exact h
      · split
        · exact h
        · split
          · rename_i h1 h2 h3
            have hr : s.termination_reason = none := by
              by_contra hc
              exact h2 (h.mp hc)
            simp [statusReasonInv, hr]
          · exact h
  | answer qf =>
      simp only [runOp, submitAnswer]
      split
      · exact h
      · split
        · exact h
        · split
          · exact h
          · rename_i h1 h2 h3
            have hr : s.termination_reason = none := by
              by_contra hc
              exact h1 (h.mp hc)
            split <;> simp [statusReasonInv, hr, h1]
  | terminate =>
      simp only [runOp, terminateInterview]
      split
      · simp [statusReasonInv]
      · exact h
  | summary =>
      simp only [runOp, getSummary]
      split <;> exact h

/-- Helper: the status/reason invariant holds on every interview
reachable from a freshly started one. -/
theorem runOps_inv (ops : List Op) (s : Interview) (h : statusReasonInv s) :
    statusReasonInv (runOps s ops) := by
  induction ops generalizing s with
  | nil => exact h
  | cons op rest ih => exact ih _ (runOp_inv s op h)

/-- C6: a poll's face verdict is classified as a violation exactly when
the reason is no_face or different_face; every other reason of the
verifier's closed vocabulary (match, bypass, expired_face_id, error) is
fail-open, classified as no violation. -/
theorem C6_face_classification (r : FaceReason) :
    isFaceViolation r = true ↔ (r = .no_face ∨ r = .different_face) := by
  cases r <;> decide

/-- C7: when both a face violation and an audio mismatch are present in
the same poll, face_violation takes precedence: it is the only violation
type recorded in the response and alert_count rises by exactly 1. -/
theorem C7_face_precedence (s : Interview) (r : FaceReason)
    (hface : isFaceViolation r = true) :
    (verifyUser s r false).2.violation_type = some TermReason.face_violation ∧
    (verifyUser s r false).1.alert_count = s.alert_count + 1 := by
  have hp : pollViolation r false = some .face_violation := by
    simp [pollViolation, hface]
  unfold verifyUser
  rw [hp]
  simp only []
  split <;> simp

/-- Witness for C7 at a concrete session and reason. -/
theorem C7_face_precedence_witness :
    (verifyUser startInterview .no_face false).2.violation_type
        = some TermReason.face_violation ∧
    (verifyUser startInterview .no_face false).1.alert_count
        = startInterview.alert_count + 1 :=
  C7_face_precedence startInterview .no_face (by decide)

/-- C2: on an in-progress session with alert_count one below the
ceiling, a single further violating poll raises alert_count to the
ceiling, flips status to terminated, records that poll's violation type
in termination_reason, and reports terminated in the response. -/
theorem C2_ceiling_terminates (s : Interview) (r : FaceReason) (a : Bool)
    (v : TermReason)
    (hst : s.status = .in_progress)
    (hcount : s.alert_count = ALERT_CEILING - 1)
    (hviol : pollViolation r a = some v) :
    (verifyUser s r a).1.alert_count = ALERT_CEILING ∧
    (verifyUser s r a).1.status = .terminated ∧
    (verifyUser s r a).1.termination_reason = some v ∧
    (verifyUser s r a).2.terminated = true := by
  unfold verifyUser
  rw [hviol]
  simp only []
  rw [hcount]
  simp [ALERT_CEILING]

/-- Witness for C2: a session at 4 alerts, hit by a no_face poll. -/
theorem C2_ceiling_terminates_witness :
    (verifyUser
        { status := .in_progress, alert_count := 4,
          consecutive_face_failures := 0, termination_reason := none,
          answered_count := 0 } .no_face true).1.status = Status.terminated ∧
    (verifyUser
        { status := .in_progress, alert_count := 4,
          consecutive_face_failures := 0, termination_reason := none,
          answered_count := 0 } .no_face true).1.termination_reason
        = some TermReason.face_violation := by
  have h := C2_ceiling_terminates
    { status := .in_progress, alert_count := 4,
      consecutive_face_failures := 0, termination_reason := none,
      answered_count := 0 } .no_face true .face_violation
    rfl (by decide) (by decide)
  exact ⟨h.2.1, h.2.2.1⟩

/-- C1 is false on the code: on a fresh in-progress session, the very
first different_face poll (with audio matching) leaves
consecutive_face_failures at 0 instead of incrementing it, raises a
face_violation alert immediately although consecutive_face_failures
never reached 3, and three consecutive such polls leave alert_count at 3
(three alerts), not 1. -/
theorem C1_counterexample :
    (verifyUser startInterview .different_face true).1.consecutive_face_failures
        = startInterview.consecutive_face_failures ∧
    (verifyUser startInterview .different_face true).1.consecutive_face_failures
        = 0 ∧
    (verifyUser startInterview .different_face true).2.alert = true ∧
    (verifyUser startInterview .different_face true).2.violation_type
        = some TermReason.face_violation ∧
    (runOps startInterview
        [.verify .different_face true, .verify .different_face true,
         .verify .different_face true]).alert_count = 3 := by
  decide

/-- C1 amended: a violating face poll raises a face_violation alert
immediately, with no debounce: the response has alert = true and
violation_type = face_violation, alert_count increments on that first
failing poll, and consecutive_face_failures is left untouched. -/
theorem C1_immediate_alert (s : Interview) (r : FaceReason) (a : Bool)
    (hface : isFaceViolation r = true) :
    (verifyUser s r a).2.alert = true ∧
    (verifyUser s r a).2.violation_type = some TermReason.face_violation ∧
    (verifyUser s r a).1.alert_count = s.alert_count + 1 ∧
    (verifyUser s r a).1.consecutive_face_failures
        = s.consecutive_face_failures := by
  have hp : pollViolation r a = some .face_violation := by
    simp [pollViolation, hface]
  unfold verifyUser
  rw [hp]
  simp only []
  split <;> simp

/-- Witness for C1's amended statement. -/
theorem C1_immediate_alert_witness :
    (verifyUser startInterview .different_face true).2.alert = true ∧
    (verifyUser startInterview .different_face true).2.violation_type
        = some TermReason.face_violation ∧
    (verifyUser startInterview .different_face true).1.alert_count
        = startInterview.alert_count + 1 ∧
    (verifyUser startInterview .different_face true).1.consecutive_face_failures
        = startInterview.consecutive_face_failures :=
  C1_immediate_alert startInterview .different_face true (by decide)

/-- C3 is false on the code: a session terminated by the manual path
(reachable by one violating poll and then terminate) still has its
alert_count mutated by a further violating poll — the poll is processed,
not rejected. -/
theorem C3_counterexample :
    (runOps startInterview [.verify .no_face true, .terminate]).status
        = Status.terminated ∧
    (runOps startInterview [.verify .no_face true, .terminate]).alert_count = 1 ∧
    (verifyUser (runOps startInterview [.verify .no_face true, .terminate])
        .no_face true).1.alert_count = 2 := by
  decide

/-- C3 amended: verify_user never reads the session status, so polls on
terminated or completed sessions are not rejected: the response is the
same as it would be with any other status on the row, and a violating
poll still increments alert_count. -/
theorem C3_no_status_guard (s : Interview) (r : FaceReason) (a : Bool)
    (st : Status) (v : TermReason) (hviol : pollViolation r a = some v) :
    (verifyUser { s with status := st } r a).2 = (verifyUser s r a).2 ∧
    (verifyUser s r a).1.alert_count = s.alert_count + 1 := by
  constructor
  · unfold verifyUser
    cases hp : pollViolation r a <;> simp only []
    · by_cases hc : isFaceViolation r = false ∧ a = true ∧ 0 < s.alert_count <;>
        simp [hc]
    · by_cases hc : ALERT_CEILING ≤ s.alert_count + 1 <;> simp [hc]
  · unfold verifyUser
    rw [hviol]
    simp only []
    split <;> simp

/-- Witness for C3's amended statement, on a terminated session. -/
theorem C3_no_status_guard_witness :
    (verifyUser
        { runOps startInterview [.verify .no_face true, .terminate] with
            status := Status.terminated } .no_face true).2
      = (verifyUser (runOps startInterview [.verify .no_face true, .terminate])
          .no_face true).2 ∧
    (verifyUser (runOps startInterview [.verify .no_face true, .terminate])
        .no_face true).1.alert_count
      = (runOps startInterview [.verify .no_face true, .terminate]).alert_count
          + 1 :=
  C3_no_status_guard (runOps startInterview [.verify .no_face true, .terminate])
    .no_face true Status.terminated TermReason.face_violation (by decide)

/-- C4 is false on the code: a session manually terminated with reason
tab_switch at alert_count 4 has that reason overwritten to
face_violation by the next violating poll, which pushes alert_count to
the ceiling and rewrites termination_reason unconditionally. -/
theorem C4_counterexample :
    (runOps startInterview
        [.verify .no_face true, .verify .no_face true, .verify .no_face true,
         .verify .no_face true, .terminate]).termination_reason
        = some TermReason.tab_switch ∧
    (verifyUser
        (runOps startInterview
          [.verify .no_face true, .verify .no_face true, .verify .no_face true,
           .verify .no_face true, .terminate]) .no_face true).1.termination_reason
        = some TermReason.face_violation := by
  decide

/-- C4 amended: termination_reason is write-once only under manual
termination — terminate_interview leaves a terminated session with a
non-null reason entirely unchanged — but not under verification polls: a
violating poll that pushes alert_count to the ceiling overwrites any
existing termination_reason with that poll's violation type. -/
theorem C4_write_once_manual_only (s : Interview) (t : TermReason)
    (r : FaceReason) (a : Bool) (v : TermReason)
    (hst : s.status = .terminated) (hr : s.termination_reason = some t)
    (hviol : pollViolation r a = some v)
    (hceil : ALERT_CEILING ≤ s.alert_count + 1) :
    terminateInterview s = s ∧
    (verifyUser s r a).1.termination_reason = some v := by
  constructor
  · simp [terminateInterview, hst, hr]
  · unfold verifyUser
    rw [hviol]
    simp only []
    rw [if_pos hceil]

/-- Witness for C4's amended statement. -/
theorem C4_write_once_manual_only_witness :
    terminateInterview
        { status := .terminated, alert_count := 4,
          consecutive_face_failures := 0,
          termination_reason := some .tab_switch, answered_count := 0 }
      = { status := .terminated, alert_count := 4,
          consecutive_face_failures := 0,
          termination_reason := some .tab_switch, answered_count := 0 } ∧
    (verifyUser
        { status := .terminated, alert_count := 4,
          consecutive_face_failures := 0,
          termination_reason := some .tab_switch, answered_count := 0 }
        .no_face true).1.termination_reason = some TermReason.face_violation :=
  C4_write_once_manual_only
    { status := .terminated, alert_count := 4, consecutive_face_failures := 0,
      termination_reason := some .tab_switch, answered_count := 0 }
    .tab_switch .no_face true .face_violation rfl rfl (by decide) (by decide)

/-- C5: on every session reachable from start_interview through any
sequence of the exposed operations, termination_reason is non-null
exactly when the status is terminated. -/
theorem C5_reason_iff_terminated (ops : List Op) :
    (runOps startInterview ops).termination_reason ≠ none ↔
    (runOps startInterview ops).status = Status.terminated :=
  runOps_inv ops startInterview (by simp [statusReasonInv, startInterview])

/-- C8: on every reachable in-progress session with alert_count > 0, a
poll with no violation at all (face verdict not violating, audio
matching) resets alert_count to 0, leaves consecutive_face_failures at
0, and reports verified = true. -/
theorem C8_clean_poll_resets (ops : List Op) (r : FaceReason) (a : Bool)
    (hst : (runOps startInterview ops).status = .in_progress)
    (hpos : 0 < (runOps startInterview ops).alert_count)
    (hface : isFaceViolation r = false) (haud : a = true) :
    (verifyUser (runOps startInterview ops) r a).1.alert_count = 0 ∧
    (verifyUser (runOps startInterview ops) r a).1.consecutive_face_failures
        = 0 ∧
    (verifyUser (runOps startInterview ops) r a).2.verified = true := by
  have hp : pollViolation r a = none := by
    simp [pollViolation, hface, haud]
  refine ⟨?_, ?_, ?_⟩
  · unfold verifyUser
    rw [hp]
    simp only []
    rw [if_pos ⟨hface, haud, hpos⟩]
  · rw [verifyUser_cff, runOps_cff]
    rfl
  · unfold verifyUser
    rw [hp]
    simp only []
    split <;> rfl

/-- Witness for C8: one no_face poll puts the session at alert_count 1
and in_progress; a clean match poll then resets it. -/
theorem C8_clean_poll_resets_witness :
    (verifyUser (runOps startInterview [.verify .no_face true])
        .match_face true).1.alert_count = 0 ∧
    (verifyUser (runOps startInterview [.verify .no_face true])
        .match_face true).1.consecutive_face_failures = 0 ∧
    (verifyUser (runOps startInterview [.verify .no_face true])
        .match_face true).2.verified = true :=
  C8_clean_poll_resets [.verify .no_face true] .match_face true
    (by decide) (by decide) (by decide) rfl

/-- C9: get_summary errors on any session whose status is neither
completed nor terminated, and it leaves the interview row unchanged. -/
theorem C9_summary_guard (s : Interview)
    (h1 : s.status ≠ .completed) (h2 : s.status ≠ .terminated) :
    (getSummary s).2 = .error "Interview not completed or terminated yet" ∧
    (getSummary s).1 = s := by
  simp [getSummary, h1, h2]

/-- Witness for C9 on a freshly started (in-progress) session. -/
theorem C9_summary_guard_witness :
    (getSummary startInterview).2
        = .error "Interview not completed or terminated yet" ∧
    (getSummary startInterview).1 = startInterview :=
  C9_summary_guard startInterview (by decide) (by decide)

/-- C10: no exposed operation writes consecutive_face_failures — every
single operation leaves the field exactly as it found it — so on every
session reachable from start_interview the field still holds its initial
value 0, whatever polls occurred. -/
theorem C10_cff_never_written :
    (∀ (s : Interview) (op : Op),
        (runOp s op).consecutive_face_failures
          = s.consecutive_face_failures) ∧
    ∀ ops : List Op,
        (runOps startInterview ops).consecutive_face_failures = 0 :=
  ⟨runOp_cff, fun ops => runOps_cff ops startInterview⟩

end AIInterview
